import Mathlib

/-!
Shallow embedding of the document-search backend (Dropbox to Elasticsearch
sync pipeline plus the search endpoint) and proofs of its specified
properties.  Remote services (Dropbox API, Elasticsearch, the OAuth token
endpoint) are modelled as environments supplying the responses the code
consumes; the code's control flow, string manipulation and state updates
are translated from the source.
-/

namespace DocSearch

/-! ## Base64 encoding

The indexer computes the document id as
`Buffer.from(file.path_lower).toString("base64")`: standard base64 with
`+/` alphabet and `=` padding over the UTF-8 bytes of the path.  Bytes are
modelled as natural numbers below 256. -/

/-- The standard base64 alphabet, in index order. -/
def b64Alphabet : List Char :=
  "ABCDEFGHIJKLMNOPQRSTUVWXYZabcdefghijklmnopqrstuvwxyz0123456789+/".toList

/-- Character for a sextet value (defaults to the pad char out of range). -/
def b64Char (n : Nat) : Char := b64Alphabet.getD n '='

/-- Index of a character in the base64 alphabet (length 64 if absent). -/
def b64Val (c : Char) : Nat := b64Alphabet.findIdx (fun a => a = c)

/-- Base64 encoding of a byte list, as `Buffer.toString("base64")` yields:
three bytes become four alphabet characters, a trailing one- or two-byte
group is padded with `=`. -/
def b64EncodeBytes : List Nat → List Char
  | [] => []
  | [b1] => [b64Char (b1 / 4), b64Char (b1 % 4 * 16), '=', '=']
  | [b1, b2] =>
      [b64Char (b1 / 4), b64Char (b1 % 4 * 16 + b2 / 16),
       b64Char (b2 % 16 * 4), '=']
  | b1 :: b2 :: b3 :: rest =>
      b64Char (b1 / 4) :: b64Char (b1 % 4 * 16 + b2 / 16) ::
      b64Char (b2 % 16 * 4 + b3 / 64) :: b64Char (b3 % 64) ::
      b64EncodeBytes rest

/-- Base64 decoding, inverse of `b64EncodeBytes` on valid byte lists; used
only to establish that the encoding is collision-free. -/
def b64Decode : List Char → List Nat
  | c1 :: c2 :: c3 :: c4 :: rest =>
      if c3 = '=' then
        [b64Val c1 * 4 + b64Val c2 / 16]
      else if c4 = '=' then
        [b64Val c1 * 4 + b64Val c2 / 16, b64Val c2 % 16 * 16 + b64Val c3 / 4]
      else
        (b64Val c1 * 4 + b64Val c2 / 16) ::
        (b64Val c2 % 16 * 16 + b64Val c3 / 4) ::
        (b64Val c3 % 4 * 64 + b64Val c4) :: b64Decode rest
  | _ => []
/-! ## JS string replace

`url.replace(pat, rep)` with a string pattern replaces only the leftmost
occurrence, or returns the string unchanged when the pattern is absent. -/

/-- Whether `pat` occurs at the start of `s`. -/
def matchesAt : List Char → List Char → Bool
  | [], _ => true
  | _ :: _, [] => false
  | p :: ps, c :: cs => p = c && matchesAt ps cs

/-- Replace the leftmost occurrence of `pat` in `s` by `rep` (JS
`String.prototype.replace` with a string pattern). -/
def replaceFirstAux : List Char → List Char → List Char → List Char
  | [], pat, rep => if matchesAt pat [] then rep else []
  | c :: rest, pat, rep =>
      if matchesAt pat (c :: rest) then rep ++ (c :: rest).drop pat.length
      else c :: replaceFirstAux rest pat rep

/-- String version of `replaceFirstAux`. -/
def replaceFirst (s pat rep : String) : String :=
  String.mk (replaceFirstAux s.data pat.data rep.data)

/-- JS `String.prototype.endsWith` with a string argument: case-sensitive
suffix match. -/
def endsWithStr (s suf : String) : Bool :=
  matchesAt suf.data.reverse s.data.reverse

/-- Shared-link normalization from the sync loop: rewrite the sharing
domain to the direct-content domain, then strip the preview marker. -/
def normalizeLink (url : String) : String :=
  replaceFirst (replaceFirst url "www.dropbox.com" "dl.dropboxusercontent.com")
    "?dl=0" ""

/-! ## Data model of the sync pipeline -/

/-- A Dropbox entry as consumed by the sync loop: display name, lowercased
path (as its UTF-8 bytes), and modification stamp. -/
structure FileEntry where
  name : String
  path_lower : List Nat
  server_modified : String
deriving DecidableEq

/-- A shared link returned by the sharing endpoints. -/
structure SharedLink where
  url : String
deriving DecidableEq

/-- The document body written to and read from the search index. -/
structure FileDocument where
  filename : String
  content : String
  path : List Nat
  lastModified : String
  url : String
deriving DecidableEq

/-- The index contents: documents keyed by id.  `esIndexDoc` models the
`esClient.index` call, which replaces any document already stored at the
given id (upsert semantics of an id-keyed write). -/
abbrev ESIndex := List (List Char × FileDocument)

/-- Write `doc` at `id`, overwriting any previous document at `id`. -/
def esIndexDoc (idx : ESIndex) (id : List Char) (doc : FileDocument) : ESIndex :=
  idx.filter (fun kv => kv.1 ≠ id) ++ [(id, doc)]

/-- Number of documents stored at a given id. -/
def keyCount (idx : ESIndex) (id : List Char) : Nat :=
  (idx.filter (fun kv => kv.1 = id)).length

/-- Number of documents whose `path` field equals `p`. -/
def pathCount (idx : ESIndex) (p : List Nat) : Nat :=
  (idx.filter (fun kv => kv.2.path = p)).length

/-- Environment of remote responses consumed by one sync run: client
acquisition, the recursive folder listing, and per-path sharing, download
and index-write outcomes.  `Except.error` marks the corresponding remote
call throwing. -/
structure SyncEnv where
  auth : Except String Unit
  listFolder : Except String (List FileEntry)
  sharingListSharedLinks : List Nat → Except String (List SharedLink)
  sharingCreateSharedLink : List Nat → Except String SharedLink
  filesDownload : List Nat → Except String String
  esWrite : List Nat → Except String Unit

/-- Per-file link resolution (the inner try/catch of the sync loop): pick
the first existing shared link, else create one, normalizing either; any
sharing failure falls back to a placeholder URL built from the file
name. -/
def resolveLink (env : SyncEnv) (file : FileEntry) : String :=
  match env.sharingListSharedLinks file.path_lower with
  | .ok (l :: _) => normalizeLink l.url
  | .ok [] =>
      match env.sharingCreateSharedLink file.path_lower with
      | .ok l => normalizeLink l.url
      | .error _ => "temporary-link-for-" ++ file.name
  | .error _ => "temporary-link-for-" ++ file.name

/-- Body of the per-file try block: re-acquire the client, resolve the
link, download and decode the content, then write the document keyed by
the base64 encoding of the lowercase path.  Auth, download or index-write
failure escapes as the thrown error. -/
def processFileBody (env : SyncEnv) (idx : ESIndex) (file : FileEntry) :
    Except String ESIndex :=
  match env.auth with
  | .error e => .error e
  | .ok _ =>
      let directLink := resolveLink env file
      match env.filesDownload file.path_lower with
      | .error e => .error e
      | .ok content =>
          match env.esWrite file.path_lower with
          | .error e => .error e
          | .ok _ =>
              .ok (esIndexDoc idx (b64EncodeBytes file.path_lower)
                { filename := file.name, content := content,
                  path := file.path_lower,
                  lastModified := file.server_modified, url := directLink })

/-- One loop iteration: a failure anywhere in the per-file body is caught,
logged, and the loop continues with the index unchanged. -/
def tryProcessFile (env : SyncEnv) (idx : ESIndex) (file : FileEntry) : ESIndex :=
  match processFileBody env idx file with
  | .ok idx2 => idx2
  | .error _ => idx

/-- The enumeration filter: keep entries whose name ends in ".txt"
(case-sensitive suffix match). -/
def textFilesOf (entries : List FileEntry) : List FileEntry :=
  entries.filter (fun entry => endsWithStr entry.name ".txt")

/-- One sync run over the store `idx0`: acquire a client, list the folder
recursively, filter to text files, and process each in listing order.
Client-acquisition or listing failure is rethrown by the outer catch;
per-file failures are swallowed by `tryProcessFile`. -/
def indexDropboxFiles (env : SyncEnv) (idx0 : ESIndex) : Except String ESIndex :=
  match env.auth with
  | .error e => .error e
  | .ok _ =>
      match env.listFolder with
      | .error e => .error e
      | .ok entries => .ok ((textFilesOf entries).foldl (tryProcessFile env) idx0)

/-! ## Token manager -/

/-- The cached OAuth tokens (module-level `dropboxTokens`); times in
milliseconds. -/
structure DropboxTokens where
  access_token : String
  refresh_token : String
  expires_at : Nat
deriving DecidableEq

/-- Body of a successful token-endpoint response; `refresh_token` is
optional in the response. -/
structure RefreshData where
  access_token : String
  refresh_token : Option String
  expires_in : Nat
deriving DecidableEq

/-- Environment for `getDropboxClient`: whether the three credential
variables are present, the configured refresh token, and the outcome of
the refresh POST (`Except.error` covers a network failure as well as a
non-2xx response, both of which the code turns into a thrown error). -/
structure AuthEnv where
  hasCredentials : Bool
  envRefreshToken : String
  refreshResponse : Except String RefreshData

/-- Result of one `getDropboxClient` call: the cache afterwards, the
access token handed to the `Dropbox` client (or the thrown error), and
how many refresh exchanges the call performed. -/
structure AuthStep where
  cache : Option DropboxTokens
  result : Except String String
  exchanges : Nat

/-- The cache entry a successful refresh at time `now` installs: the
returned access token, the returned refresh token (falling back to the
configured one when the response omits it), and expiry now plus the
returned lifetime in seconds. -/
def freshTokens (env : AuthEnv) (data : RefreshData) (now : Nat) :
    DropboxTokens :=
  { access_token := data.access_token
  , refresh_token := data.refresh_token.getD env.envRefreshToken
  , expires_at := now + data.expires_in * 1000 }

/-- The refresh exchange (the body of the `if` in `getDropboxClient`): on
success the cache is replaced by `freshTokens`; on failure the error is
rethrown and the cache is left as it was. -/
def refreshExchange (env : AuthEnv) (state : Option DropboxTokens) (now : Nat) :
    AuthStep :=
  match env.refreshResponse with
  | .error e => { cache := state, result := .error e, exchanges := 1 }
  | .ok data =>
      let fresh : DropboxTokens := freshTokens env data now
      { cache := some fresh, result := .ok fresh.access_token, exchanges := 1 }

/-- `getDropboxClient`: missing credentials throw; a missing or expired
cached token triggers one refresh exchange; otherwise the cached token is
used as it is, with no exchange. -/
def getDropboxClient (env : AuthEnv) (state : Option DropboxTokens) (now : Nat) :
    AuthStep :=
  if env.hasCredentials = false then
    { cache := state
    , result := .error "Missing Dropbox credentials in environment variables"
    , exchanges := 0 }
  else
    match state with
    | none => refreshExchange env none now
    | some t =>
        if t.expires_at ≤ now then refreshExchange env (some t) now
        else { cache := some t, result := .ok t.access_token, exchanges := 0 }

/-! ## Search endpoint -/

/-- A hit's highlight object as returned by the engine. -/
structure HitHighlight where
  content : Option (List String)
deriving DecidableEq

/-- One raw search hit: optional source document, optional relevance
score, optional highlight.  The handler passes scores through untouched,
so they are modelled as integers. -/
structure ESHit where
  source : Option FileDocument
  score : Option Int
  highlight : Option HitHighlight
deriving DecidableEq

/-- One response row (`SearchResult` in the source). -/
structure SearchResult where
  filename : String
  url : String
  lastModified : String
  score : Int
  excerpt : Option String
deriving DecidableEq

/-- Mapping of one raw hit to a response row, as in the handler: missing
source fields default to the empty string, a missing score to 0, and the
excerpt is the first highlight fragment when the highlight carries a
fragment list. -/
def mapHit (hit : ESHit) : SearchResult :=
  { filename := (hit.source.map FileDocument.filename).getD ""
  , url := (hit.source.map FileDocument.url).getD ""
  , lastModified := (hit.source.map FileDocument.lastModified).getD ""
  , score := hit.score.getD 0
  , excerpt :=
      match hit.highlight.bind HitHighlight.content with
      | some frags => frags.head?
      | none => none }

/-- Body of an HTTP response from the search endpoint. -/
inductive ResponseBody
  | errorObj (msg : String)
  | hits (results : List SearchResult)
deriving DecidableEq

/-- Status and body of a response. -/
structure HttpResponse where
  status : Nat
  body : ResponseBody
deriving DecidableEq

/-- Environment for one search request: what `esClient.search` returns
for a given term (`Except.error` marks the call throwing). -/
structure SearchEnv where
  searchOutcome : String → Except String (List ESHit)

/-- The `GET /api/search` handler: a missing or empty `q` yields 400
without querying the index; a failing query yields a generic 500; success
yields 200 with the mapped hits.  The second component counts queries
sent to the index. -/
def handleSearch (env : SearchEnv) (q : Option String) : HttpResponse × Nat :=
  match q with
  | none => ({ status := 400, body := .errorObj "Search term is required" }, 0)
  | some term =>
      if term = "" then
        ({ status := 400, body := .errorObj "Search term is required" }, 0)
      else
        match env.searchOutcome term with
        | .error _ => ({ status := 500, body := .errorObj "Search failed" }, 1)
        | .ok hitList =>
            ({ status := 200, body := .hits (hitList.map mapHit) }, 1)

/-- Store invariant: every stored document sits at the base64 encoding of
its own path, and that path is made of bytes. -/
def WellKeyed (idx : ESIndex) : Prop :=
  ∀ kv ∈ idx, kv.1 = b64EncodeBytes kv.2.path ∧ ∀ b ∈ kv.2.path, b < 256
/-! ## Concrete fixtures

Small closed instances used to instantiate the theorems below on concrete
inputs. -/

/-- Bytes of the lowercase path "/a.txt". -/
def wPathA : List Nat := [47, 97, 46, 116, 120, 116]

/-- Bytes of the lowercase path "/b.txt". -/
def wPathB : List Nat := [47, 98, 46, 116, 120, 116]

/-- Bytes of the lowercase path "/c.txt". -/
def wPathC : List Nat := [47, 99, 46, 116, 120, 116]

/-- Entry named a.txt. -/
def wFileA : FileEntry :=
  { name := "a.txt", path_lower := wPathA
  , server_modified := "2024-01-01T00:00:00Z" }

/-- Entry named b.txt. -/
def wFileB : FileEntry :=
  { name := "b.txt", path_lower := wPathB
  , server_modified := "2024-01-02T00:00:00Z" }

/-- Entry named c.txt. -/
def wFileC : FileEntry :=
  { name := "c.txt", path_lower := wPathC
  , server_modified := "2024-01-03T00:00:00Z" }

/-- Entry named b.md (filtered out). -/
def wFileMd : FileEntry :=
  { name := "b.md", path_lower := wPathB
  , server_modified := "2024-01-02T00:00:00Z" }

/-- Entry named c.TXT (filtered out: suffix match is case-sensitive). -/
def wFileTXT : FileEntry :=
  { name := "c.TXT", path_lower := wPathC
  , server_modified := "2024-01-03T00:00:00Z" }

/-- A sync environment where every remote call succeeds and one shared
link already exists for every path. -/
def wSyncEnv : SyncEnv :=
  { auth := .ok ()
  , listFolder := .ok [wFileA]
  , sharingListSharedLinks := fun _ =>
      .ok [{ url := "https://www.dropbox.com/s/abc?dl=0" }]
  , sharingCreateSharedLink := fun _ =>
      .ok { url := "https://www.dropbox.com/s/new?dl=0" }
  , filesDownload := fun _ => .ok "hello world"
  , esWrite := fun _ => .ok () }

/-- Index contents after one run of `wSyncEnv` from an empty store. -/
def wIdx1 : ESIndex := (indexDropboxFiles wSyncEnv []).toOption.getD []

/-- Index contents after a second, unchanged run of `wSyncEnv`. -/
def wIdx2 : ESIndex := (indexDropboxFiles wSyncEnv wIdx1).toOption.getD []

/-- Three text files; downloading the second one fails. -/
def wEnvFail2 : SyncEnv :=
  { auth := .ok ()
  , listFolder := .ok [wFileA, wFileB, wFileC]
  , sharingListSharedLinks := fun _ =>
      .ok [{ url := "https://www.dropbox.com/s/abc?dl=0" }]
  , sharingCreateSharedLink := fun _ =>
      .ok { url := "https://www.dropbox.com/s/new?dl=0" }
  , filesDownload := fun p =>
      if p = wPathB then .error "download failed" else .ok "file content"
  , esWrite := fun _ => .ok () }

/-- Three text files; the index write of the second one fails. -/
def wEnvWriteFail : SyncEnv :=
  { auth := .ok ()
  , listFolder := .ok [wFileA, wFileB, wFileC]
  , sharingListSharedLinks := fun _ =>
      .ok [{ url := "https://www.dropbox.com/s/abc?dl=0" }]
  , sharingCreateSharedLink := fun _ =>
      .ok { url := "https://www.dropbox.com/s/new?dl=0" }
  , filesDownload := fun _ => .ok "file content"
  , esWrite := fun p =>
      if p = wPathB then .error "write failed" else .ok () }

/-- The folder listing itself fails. -/
def wEnvEnumFail : SyncEnv :=
  { auth := .ok ()
  , listFolder := .error "listing failed"
  , sharingListSharedLinks := fun _ => .ok []
  , sharingCreateSharedLink := fun _ => .ok { url := "u" }
  , filesDownload := fun _ => .ok ""
  , esWrite := fun _ => .ok () }

/-- No shared link exists yet; creating one succeeds. -/
def wEnvNoLink : SyncEnv :=
  { wSyncEnv with sharingListSharedLinks := fun _ => .ok [] }

/-- Listing shared links throws. -/
def wEnvShareFail : SyncEnv :=
  { wSyncEnv with sharingListSharedLinks := fun _ => .error "sharing down" }

/-- A successful token-endpoint response with a four-hour lifetime and no
replacement refresh token. -/
def wRefreshData : RefreshData :=
  { access_token := "tok-new", refresh_token := none, expires_in := 14400 }

/-- Credentials present; the refresh exchange succeeds. -/
def wAuthEnv : AuthEnv :=
  { hasCredentials := true, envRefreshToken := "refresh-0"
  , refreshResponse := .ok wRefreshData }

/-- Credentials present; the refresh exchange fails. -/
def wAuthEnvFail : AuthEnv :=
  { hasCredentials := true, envRefreshToken := "refresh-0"
  , refreshResponse := .error "refresh failed" }

/-- An expired cached token (expiry 5 ms). -/
def wTokOld : DropboxTokens :=
  { access_token := "tok-old", refresh_token := "refresh-old"
  , expires_at := 5 }

/-- A cached token valid far into the future. -/
def wTokValid : DropboxTokens :=
  { access_token := "tok-live", refresh_token := "refresh-live"
  , expires_at := 999999 }

/-- An indexed document as stored for wPathA. -/
def wDoc : FileDocument :=
  { filename := "note.txt", content := "hello world", path := wPathA
  , lastModified := "2024-01-01T00:00:00Z"
  , url := "https://dl.dropboxusercontent.com/s/abc" }

/-- A hit with source, score and two highlight fragments. -/
def wHit1 : ESHit :=
  { source := some wDoc, score := some 5
  , highlight := some { content := some ["<em>hello</em> world", "again hello"] } }

/-- A hit with no source, no score and no highlight. -/
def wHit2 : ESHit :=
  { source := none, score := none, highlight := none }

/-- The engine answers every term with two hits, except "boom" which makes
the query throw. -/
def wSearchEnv : SearchEnv :=
  { searchOutcome := fun t =>
      if t = "boom" then .error "es down" else .ok [wHit1, wHit2] }

/-! ## Base64 lemmas -/

theorem b64Val_b64Char_fin : ∀ n : Fin 64, b64Val (b64Char n.val) = n.val := by
  decide

theorem b64Char_ne_pad_fin : ∀ n : Fin 64, b64Char n.val ≠ '=' := by
  decide

theorem b64Val_b64Char (n : Nat) (h : n < 64) : b64Val (b64Char n) = n :=
  b64Val_b64Char_fin ⟨n, h⟩

theorem b64Char_ne_pad (n : Nat) (h : n < 64) : b64Char n ≠ '=' :=
  b64Char_ne_pad_fin ⟨n, h⟩

/-- Decoding inverts encoding on byte lists. -/
theorem b64_roundtrip :
    ∀ l : List Nat, (∀ b ∈ l, b < 256) → b64Decode (b64EncodeBytes l) = l := by
  intro l
  induction l using b64EncodeBytes.induct with
  | case1 =>
      intro _; rfl
  | case2 b1 =>
      intro hb
      have h1 : b1 < 256 := hb b1 (by simp)
      have e1 := b64Val_b64Char (b1 / 4) (by omega)
      have e2 := b64Val_b64Char (b1 % 4 * 16) (by omega)
      simp [b64EncodeBytes, b64Decode, e1, e2]
      omega
  | case3 b1 b2 =>
      intro hb
      have h1 : b1 < 256 := hb b1 (by simp)
      have h2 : b2 < 256 := hb b2 (by simp)
      have e1 := b64Val_b64Char (b1 / 4) (by omega)
      have e2 := b64Val_b64Char (b1 % 4 * 16 + b2 / 16) (by omega)
      have e3 := b64Val_b64Char (b2 % 16 * 4) (by omega)
      have n3 := b64Char_ne_pad (b2 % 16 * 4) (by omega)
      simp [b64EncodeBytes, b64Decode, e1, e2, e3, n3]
      omega
  | case4 b1 b2 b3 rest ih =>
      intro hb
      have h1 : b1 < 256 := hb b1 (by simp)
      have h2 : b2 < 256 := hb b2 (by simp)
      have h3 : b3 < 256 := hb b3 (by simp)
      have e1 := b64Val_b64Char (b1 / 4) (by omega)
      have e2 := b64Val_b64Char (b1 % 4 * 16 + b2 / 16) (by omega)
      have e3 := b64Val_b64Char (b2 % 16 * 4 + b3 / 64) (by omega)
      have e4 := b64Val_b64Char (b3 % 64) (by omega)
      have n3 := b64Char_ne_pad (b2 % 16 * 4 + b3 / 64) (by omega)
      have n4 := b64Char_ne_pad (b3 % 64) (by omega)
      have ihr := ih (fun b hmem => hb b (by simp [hmem]))
      simp [b64EncodeBytes, b64Decode, e1, e2, e3, e4, n3, n4, ihr]
      omega

/-- The document-id encoding is collision-free on byte lists. -/
theorem b64EncodeBytes_inj (l1 l2 : List Nat)
    (h1 : ∀ b ∈ l1, b < 256) (h2 : ∀ b ∈ l2, b < 256)
    (he : b64EncodeBytes l1 = b64EncodeBytes l2) : l1 = l2 := by
  have r1 := b64_roundtrip l1 h1
  rw [he, b64_roundtrip l2 h2] at r1
  exact r1.symm

/-! ## Index algebra -/

theorem keyCount_append (l1 l2 : ESIndex) (id : List Char) :
    keyCount (l1 ++ l2) id = keyCount l1 id + keyCount l2 id := by
  simp [keyCount, List.filter_append]

theorem keyCount_esIndexDoc_self (idx : ESIndex) (id : List Char)
    (doc : FileDocument) : keyCount (esIndexDoc idx id doc) id = 1 := by
  unfold esIndexDoc
  rw [keyCount_append]
  have h0 : keyCount (idx.filter fun kv => kv.1 ≠ id) id = 0 := by
    unfold keyCount
    rw [List.filter_eq_nil_iff.mpr]
    · rfl
    · intro kv hkv
      have hne := (List.mem_filter.mp hkv).2
      simp at hne ⊢
      exact hne
  rw [h0]
  simp [keyCount]

theorem keyCount_esIndexDoc_other (idx : ESIndex) (id id2 : List Char)
    (doc : FileDocument) (h : id2 ≠ id) :
    keyCount (esIndexDoc idx id doc) id2 = keyCount idx id2 := by
  unfold esIndexDoc
  rw [keyCount_append]
  have h1 : keyCount [(id, doc)] id2 = 0 := by
    have hne : ¬ id = id2 := fun he => h he.symm
    simp [keyCount, hne]
  have h2 : keyCount (idx.filter fun kv => kv.1 ≠ id) id2 = keyCount idx id2 := by
    unfold keyCount
    congr 1
    rw [List.filter_filter]
    apply List.filter_congr
    intro kv _
    by_cases hk : kv.1 = id2
    · have hne : ¬ kv.1 = id := by rw [hk]; exact h
      simp [hk, hne, h]
    · simp [hk]
  rw [h1, h2]
  omega

/-- Every successful per-file body is an id-keyed overwrite of the store
with the document built from that file. -/
theorem processFileBody_ok_shape (env : SyncEnv) (idx : ESIndex) (f : FileEntry)
    (idx2 : ESIndex) (h : processFileBody env idx f = .ok idx2) :
    ∃ c, env.filesDownload f.path_lower = .ok c ∧
      idx2 = esIndexDoc idx (b64EncodeBytes f.path_lower)
        { filename := f.name, content := c, path := f.path_lower,
          lastModified := f.server_modified, url := resolveLink env f } := by
  unfold processFileBody at h
  cases hA : env.auth with
  | error e => rw [hA] at h; simp at h
  | ok u =>
      rw [hA] at h
      cases hD : env.filesDownload f.path_lower with
      | error e => rw [hD] at h; simp at h
      | ok c =>
          rw [hD] at h
          cases hW : env.esWrite f.path_lower with
          | error e => rw [hW] at h; simp at h
          | ok v =>
              rw [hW] at h
              simp at h
              exact ⟨c, rfl, h.symm⟩

theorem tryProcessFile_eq_of_success (env : SyncEnv) (idx : ESIndex)
    (f : FileEntry) (c : String) (ha : env.auth = .ok ())
    (hdl : env.filesDownload f.path_lower = .ok c)
    (hwr : env.esWrite f.path_lower = .ok ()) :
    tryProcessFile env idx f =
      esIndexDoc idx (b64EncodeBytes f.path_lower)
        { filename := f.name, content := c, path := f.path_lower,
          lastModified := f.server_modified, url := resolveLink env f } := by
  unfold tryProcessFile processFileBody
  rw [ha, hdl, hwr]

theorem keyCount_tryProcessFile (env : SyncEnv) (idx : ESIndex) (f : FileEntry)
    (k : List Char) (h : keyCount idx k = 1) :
    keyCount (tryProcessFile env idx f) k = 1 := by
  unfold tryProcessFile
  cases hb : processFileBody env idx f with
  | error e => exact h
  | ok idx2 =>
      obtain ⟨c, -, rfl⟩ := processFileBody_ok_shape env idx f idx2 hb
      by_cases hk : b64EncodeBytes f.path_lower = k
      · subst hk; exact keyCount_esIndexDoc_self ..
      · rw [keyCount_esIndexDoc_other _ _ _ _ (fun he => hk he.symm)]
        exact h

theorem keyCount_foldl (env : SyncEnv) (files : List FileEntry) (idx : ESIndex)
    (k : List Char) (h : keyCount idx k = 1) :
    keyCount (files.foldl (tryProcessFile env) idx) k = 1 := by
  induction files generalizing idx with
  | nil => exact h
  | cons f rest ih => exact ih _ (keyCount_tryProcessFile env idx f k h)

theorem wellKeyed_esIndexDoc (idx : ESIndex) (doc : FileDocument)
    (hidx : WellKeyed idx) (hdoc : ∀ b ∈ doc.path, b < 256) :
    WellKeyed (esIndexDoc idx (b64EncodeBytes doc.path) doc) := by
  intro kv hkv
  unfold esIndexDoc at hkv
  rcases List.mem_append.mp hkv with hl | hr
  · exact hidx kv (List.mem_of_mem_filter hl)
  · rw [List.mem_singleton.mp hr]
    exact ⟨rfl, hdoc⟩

theorem wellKeyed_tryProcessFile (env : SyncEnv) (idx : ESIndex) (f : FileEntry)
    (hidx : WellKeyed idx) (hf : ∀ b ∈ f.path_lower, b < 256) :
    WellKeyed (tryProcessFile env idx f) := by
  unfold tryProcessFile
  cases hb : processFileBody env idx f with
  | error e => exact hidx
  | ok idx2 =>
      obtain ⟨c, -, rfl⟩ := processFileBody_ok_shape env idx f idx2 hb
      exact wellKeyed_esIndexDoc idx
        { filename := f.name, content := c, path := f.path_lower,
          lastModified := f.server_modified, url := resolveLink env f } hidx hf

theorem wellKeyed_foldl (env : SyncEnv) (files : List FileEntry) (idx : ESIndex)
    (hidx : WellKeyed idx) (hf : ∀ f ∈ files, ∀ b ∈ f.path_lower, b < 256) :
    WellKeyed (files.foldl (tryProcessFile env) idx) := by
  induction files generalizing idx with
  | nil => exact hidx
  | cons f rest ih =>
      exact ih _ (wellKeyed_tryProcessFile env idx f hidx (hf f (by simp)))
        (fun g hg => hf g (by simp [hg]))

/-- Under the store invariant, counting by path is counting by id. -/
theorem pathCount_eq_keyCount (idx : ESIndex) (p : List Nat)
    (hidx : WellKeyed idx) (hp : ∀ b ∈ p, b < 256) :
    pathCount idx p = keyCount idx (b64EncodeBytes p) := by
  unfold pathCount keyCount
  congr 1
  apply List.filter_congr
  intro kv hkv
  obtain ⟨hk, hv⟩ := hidx kv hkv
  by_cases h : kv.2.path = p
  · simp [h, hk]
  · have hne : kv.1 ≠ b64EncodeBytes p := by
      rw [hk]
      intro he
      exact h (b64EncodeBytes_inj _ _ hv hp he)
    simp [h, hne]

/-- A successful run with enumeration `entries` computes the fold of the
per-file step over the filtered entries. -/
theorem run_unfold (env : SyncEnv) (entries : List FileEntry) (idx0 idx : ESIndex)
    (hlist : env.listFolder = .ok entries)
    (hrun : indexDropboxFiles env idx0 = .ok idx) :
    env.auth = .ok () ∧
      idx = (textFilesOf entries).foldl (tryProcessFile env) idx0 := by
  unfold indexDropboxFiles at hrun
  cases hA : env.auth with
  | error e => rw [hA] at hrun; simp at hrun
  | ok u =>
      cases u
      rw [hA, hlist] at hrun
      simp at hrun
      exact ⟨rfl, hrun.symm⟩

/-- After a successful run, a text file whose download and index write
succeed has exactly one document at its id. -/
theorem run_keyCount (env : SyncEnv) (entries : List FileEntry)
    (idx0 idx : ESIndex) (f : FileEntry) (c : String)
    (hlist : env.listFolder = .ok entries)
    (hrun : indexDropboxFiles env idx0 = .ok idx)
    (hmem : f ∈ entries) (htxt : endsWithStr f.name ".txt" = true)
    (hdl : env.filesDownload f.path_lower = .ok c)
    (hwr : env.esWrite f.path_lower = .ok ()) :
    keyCount idx (b64EncodeBytes f.path_lower) = 1 := by
  obtain ⟨hA, rfl⟩ := run_unfold env entries idx0 idx hlist hrun
  have hmemt : f ∈ textFilesOf entries :=
    List.mem_filter.mpr ⟨hmem, htxt⟩
  obtain ⟨l1, l2, hsplit⟩ := List.append_of_mem hmemt
  rw [hsplit, List.foldl_append]
  simp only [List.foldl_cons]
  rw [tryProcessFile_eq_of_success env _ f c hA hdl hwr]
  apply keyCount_foldl
  exact keyCount_esIndexDoc_self ..

theorem run_wellKeyed (env : SyncEnv) (entries : List FileEntry)
    (idx0 idx : ESIndex)
    (hvalid : ∀ e ∈ entries, ∀ b ∈ e.path_lower, b < 256)
    (hlist : env.listFolder = .ok entries)
    (hrun : indexDropboxFiles env idx0 = .ok idx)
    (h0 : WellKeyed idx0) : WellKeyed idx := by
  obtain ⟨hA, rfl⟩ := run_unfold env entries idx0 idx hlist hrun
  exact wellKeyed_foldl env _ idx0 h0
    (fun g hg => hvalid g (List.mem_of_mem_filter hg))

/-! ## Further run lemmas -/

theorem run_ok (env : SyncEnv) (entries : List FileEntry) (idx0 : ESIndex)
    (hA : env.auth = .ok ()) (hlist : env.listFolder = .ok entries) :
    indexDropboxFiles env idx0 =
      .ok ((textFilesOf entries).foldl (tryProcessFile env) idx0) := by
  unfold indexDropboxFiles
  rw [hA, hlist]

theorem run_aborts_on_enum_failure (env : SyncEnv) (idx0 : ESIndex)
    (msg : String) (hA : env.auth = .ok ())
    (hlist : env.listFolder = .error msg) :
    indexDropboxFiles env idx0 = .error msg := by
  unfold indexDropboxFiles
  rw [hA, hlist]

theorem tryProcessFile_eq_of_download_error (env : SyncEnv) (idx : ESIndex)
    (f : FileEntry) (msg : String)
    (hdl : env.filesDownload f.path_lower = .error msg) :
    tryProcessFile env idx f = idx := by
  unfold tryProcessFile processFileBody
  cases hA : env.auth with
  | error e => rfl
  | ok u => rw [hdl]

/-- A per-entry step throwing — the content download or the index write —
makes the caught body leave the store unchanged. -/
theorem tryProcessFile_eq_of_step_error (env : SyncEnv) (idx : ESIndex)
    (f : FileEntry) (msg : String)
    (hstep : env.filesDownload f.path_lower = .error msg ∨
      env.esWrite f.path_lower = .error msg) :
    tryProcessFile env idx f = idx := by
  unfold tryProcessFile processFileBody
  cases hA : env.auth with
  | error e => rfl
  | ok u =>
      cases hD : env.filesDownload f.path_lower with
      | error e => rfl
      | ok c =>
          rcases hstep with h | h
          · rw [hD] at h; simp at h
          · rw [h]

theorem keyCount_foldl_of_mem (env : SyncEnv) (files : List FileEntry)
    (idx0 : ESIndex) (f : FileEntry) (c : String)
    (hA : env.auth = .ok ()) (hmem : f ∈ files)
    (hdl : env.filesDownload f.path_lower = .ok c)
    (hwr : env.esWrite f.path_lower = .ok ()) :
    keyCount (files.foldl (tryProcessFile env) idx0)
      (b64EncodeBytes f.path_lower) = 1 := by
  obtain ⟨l1, l2, hsplit⟩ := List.append_of_mem hmem
  rw [hsplit, List.foldl_append]
  simp only [List.foldl_cons]
  rw [tryProcessFile_eq_of_success env _ f c hA hdl hwr]
  apply keyCount_foldl
  exact keyCount_esIndexDoc_self ..

/-! ## Claims -/

/-- C1: running the sync twice over an unchanged remote file set yields
exactly one indexed document per path.  The document id is the
deterministic base64 encoding of the file's lowercase path, so the same
path produces the same id in both runs and the second run overwrites
rather than duplicates: after either run the store holds exactly one
document at that id and exactly one document carrying that path. -/
theorem C1_sync_twice_one_doc_per_path (env : SyncEnv)
    (entries : List FileEntry) (idx1 idx2 : ESIndex) (f : FileEntry)
    (c : String)
    (hvalid : ∀ e ∈ entries, ∀ b ∈ e.path_lower, b < 256)
    (hlist : env.listFolder = .ok entries)
    (h1 : indexDropboxFiles env [] = .ok idx1)
    (h2 : indexDropboxFiles env idx1 = .ok idx2)
    (hmem : f ∈ entries) (htxt : endsWithStr f.name ".txt" = true)
    (hdl : env.filesDownload f.path_lower = .ok c)
    (hwr : env.esWrite f.path_lower = .ok ()) :
    keyCount idx1 (b64EncodeBytes f.path_lower) = 1 ∧
    keyCount idx2 (b64EncodeBytes f.path_lower) = 1 ∧
    pathCount idx1 f.path_lower = 1 ∧
    pathCount idx2 f.path_lower = 1 := by
  have hk1 := run_keyCount env entries [] idx1 f c hlist h1 hmem htxt hdl hwr
  have hk2 := run_keyCount env entries idx1 idx2 f c hlist h2 hmem htxt hdl hwr
  have hw1 : WellKeyed idx1 :=
    run_wellKeyed env entries [] idx1 hvalid hlist h1
      (by intro kv hkv; cases hkv)
  have hw2 : WellKeyed idx2 :=
    run_wellKeyed env entries idx1 idx2 hvalid hlist h2 hw1
  have hfp : ∀ b ∈ f.path_lower, b < 256 := hvalid f hmem
  exact ⟨hk1, hk2,
    (pathCount_eq_keyCount idx1 f.path_lower hw1 hfp).trans hk1,
    (pathCount_eq_keyCount idx2 f.path_lower hw2 hfp).trans hk2⟩

/-- C1 witness: the two-run theorem instantiated on a one-file corpus. -/
theorem C1_witness :
    keyCount wIdx1 (b64EncodeBytes wFileA.path_lower) = 1 ∧
    keyCount wIdx2 (b64EncodeBytes wFileA.path_lower) = 1 ∧
    pathCount wIdx1 wFileA.path_lower = 1 ∧
    pathCount wIdx2 wFileA.path_lower = 1 :=
  C1_sync_twice_one_doc_per_path wSyncEnv [wFileA] wIdx1 wIdx2 wFileA
    "hello world" (by decide) rfl rfl rfl (by decide) rfl rfl rfl

/-- C2: per-entry failures are isolated.  With a client and a successful
enumeration, the run completes even though a per-entry step of entry g —
its content download (fetch/decode) or its index write — throws: the run
equals the fold over the remaining entries, every remaining entry whose
download and index write succeed ends up with exactly one document at
its id, and only a failed client acquisition or a failed enumeration
aborts a run. -/
theorem C2_partial_failure_isolation (env : SyncEnv)
    (entries : List FileEntry) (idx0 : ESIndex) (g : FileEntry)
    (l1 l2 : List FileEntry) (msg : String)
    (hA : env.auth = .ok ())
    (hlist : env.listFolder = .ok entries)
    (hsplit : textFilesOf entries = l1 ++ g :: l2)
    (hgfail : env.filesDownload g.path_lower = .error msg ∨
      env.esWrite g.path_lower = .error msg) :
    indexDropboxFiles env idx0 =
      .ok ((l1 ++ l2).foldl (tryProcessFile env) idx0) ∧
    (∀ f ∈ l1 ++ l2, ∀ c, env.filesDownload f.path_lower = .ok c →
      env.esWrite f.path_lower = .ok () →
      keyCount ((l1 ++ l2).foldl (tryProcessFile env) idx0)
        (b64EncodeBytes f.path_lower) = 1) ∧
    (∀ env2 : SyncEnv, ∀ idxb : ESIndex, ∀ e2 : String,
      env2.auth = .ok () → env2.listFolder = .error e2 →
      indexDropboxFiles env2 idxb = .error e2) := by
  refine ⟨?_, ?_, ?_⟩
  · rw [run_ok env entries idx0 hA hlist]
    have hfold : (textFilesOf entries).foldl (tryProcessFile env) idx0 =
        (l1 ++ l2).foldl (tryProcessFile env) idx0 := by
      rw [hsplit, List.foldl_append, List.foldl_append]
      simp only [List.foldl_cons]
      rw [tryProcessFile_eq_of_step_error env _ g msg hgfail]
    rw [hfold]
  · intro f hmem c hdl hwr
    exact keyCount_foldl_of_mem env (l1 ++ l2) idx0 f c hA hmem hdl hwr
  · intro env2 idxb e2 hA2 hl2
    exact run_aborts_on_enum_failure env2 idxb e2 hA2 hl2

/-- C2 witness: three text files.  With the second file's download
throwing, and separately with the second file's index write throwing, the
run completes and files 1 and 3 are each indexed under their id; an
enumeration failure aborts the run. -/
theorem C2_witness :
    (indexDropboxFiles wEnvFail2 [] =
      .ok (([wFileA] ++ [wFileC]).foldl (tryProcessFile wEnvFail2) []) ∧
     keyCount (([wFileA] ++ [wFileC]).foldl (tryProcessFile wEnvFail2) [])
       (b64EncodeBytes wFileA.path_lower) = 1 ∧
     keyCount (([wFileA] ++ [wFileC]).foldl (tryProcessFile wEnvFail2) [])
       (b64EncodeBytes wFileC.path_lower) = 1) ∧
    (indexDropboxFiles wEnvWriteFail [] =
      .ok (([wFileA] ++ [wFileC]).foldl (tryProcessFile wEnvWriteFail) []) ∧
     keyCount (([wFileA] ++ [wFileC]).foldl (tryProcessFile wEnvWriteFail) [])
       (b64EncodeBytes wFileA.path_lower) = 1 ∧
     keyCount (([wFileA] ++ [wFileC]).foldl (tryProcessFile wEnvWriteFail) [])
       (b64EncodeBytes wFileC.path_lower) = 1) ∧
    indexDropboxFiles wEnvEnumFail [] = .error "listing failed" := by
  have h1 := C2_partial_failure_isolation wEnvFail2 [wFileA, wFileB, wFileC]
    [] wFileB [wFileA] [wFileC] "download failed" rfl rfl rfl (Or.inl rfl)
  have h2 := C2_partial_failure_isolation wEnvWriteFail
    [wFileA, wFileB, wFileC] [] wFileB [wFileA] [wFileC] "write failed"
    rfl rfl rfl (Or.inr rfl)
  exact ⟨⟨h1.1, h1.2.1 wFileA (by decide) "file content" rfl rfl,
      h1.2.1 wFileC (by decide) "file content" rfl rfl⟩,
    ⟨h2.1, h2.2.1 wFileA (by decide) "file content" rfl rfl,
      h2.2.1 wFileC (by decide) "file content" rfl rfl⟩,
    h1.2.2 wEnvEnumFail [] "listing failed" rfl rfl⟩

/-- C3: the sync's enumeration is the provider's recursive listing
filtered to exactly the entries whose name ends with ".txt": membership
in the filtered sequence is equivalent to being a listed entry carrying
the suffix (so no matching entry is omitted), the filtered sequence is a
sublist of the listing (provider order preserved), and a listing failure
aborts the whole run with that error. -/
theorem C3_enumeration_complete (entries : List FileEntry) :
    (∀ e, e ∈ textFilesOf entries ↔
      e ∈ entries ∧ endsWithStr e.name ".txt" = true) ∧
    (textFilesOf entries).Sublist entries ∧
    (∀ env : SyncEnv, ∀ idx0 : ESIndex, ∀ msg : String,
      env.auth = .ok () → env.listFolder = .error msg →
      indexDropboxFiles env idx0 = .error msg) := by
  refine ⟨fun e => ?_, ?_, ?_⟩
  · unfold textFilesOf
    exact List.mem_filter
  · exact List.filter_sublist entries
  · intro env idx0 msg hA hlist
    exact run_aborts_on_enum_failure env idx0 msg hA hlist

/-- C3 witness. -/
theorem C3_witness :
    (wFileA ∈ textFilesOf [wFileA, wFileMd, wFileTXT] ↔
      wFileA ∈ [wFileA, wFileMd, wFileTXT] ∧
        endsWithStr wFileA.name ".txt" = true) ∧
    (textFilesOf [wFileA, wFileMd, wFileTXT]).Sublist
      [wFileA, wFileMd, wFileTXT] ∧
    indexDropboxFiles wEnvEnumFail [] = .error "listing failed" := by
  have h := C3_enumeration_complete [wFileA, wFileMd, wFileTXT]
  exact ⟨h.1 wFileA, h.2.1, h.2.2 wEnvEnumFail [] "listing failed" rfl rfl⟩

/-- C4: of the entries named a.txt, b.md and c.TXT, exactly a.txt passes
the extension filter — the suffix match is case-sensitive. -/
theorem C4_filter_case_sensitive :
    textFilesOf [wFileA, wFileMd, wFileTXT] = [wFileA] := by
  rfl


/-! ## Token manager lemmas -/

theorem getDropboxClient_fresh (env : AuthEnv) (d : RefreshData) (now : Nat)
    (hc : env.hasCredentials = true) (hr : env.refreshResponse = .ok d) :
    getDropboxClient env none now =
      { cache := some (freshTokens env d now)
      , result := .ok d.access_token, exchanges := 1 } := by
  simp [getDropboxClient, hc, refreshExchange, hr, freshTokens]

theorem getDropboxClient_cached (env : AuthEnv) (t : DropboxTokens) (now : Nat)
    (hc : env.hasCredentials = true) (hlt : now < t.expires_at) :
    getDropboxClient env (some t) now =
      { cache := some t, result := .ok t.access_token, exchanges := 0 } := by
  have hn : ¬ (t.expires_at ≤ now) := by omega
  simp [getDropboxClient, hc, hn]

theorem getDropboxClient_expired (env : AuthEnv) (t : DropboxTokens)
    (d : RefreshData) (now : Nat)
    (hc : env.hasCredentials = true) (hr : env.refreshResponse = .ok d)
    (hle : t.expires_at ≤ now) :
    getDropboxClient env (some t) now =
      { cache := some (freshTokens env d now)
      , result := .ok d.access_token, exchanges := 1 } := by
  simp [getDropboxClient, hc, hle, refreshExchange, hr, freshTokens]

/-- C5: token caching.  From an empty cache, obtain() performs one
exchange and caches a token expiring at the call time plus the
provider-supplied lifetime; a second call before that expiry performs no
exchange and keeps the cache unchanged (one exchange across the two
calls); a call at or after the expiry performs exactly one further
exchange whose cached expiry is its own call time plus the lifetime; and
a valid cached token is returned unchanged with no exchange at all. -/
theorem C5_token_caching (env : AuthEnv) (d : RefreshData)
    (now1 now2 now3 : Nat) (t : DropboxTokens)
    (hc : env.hasCredentials = true)
    (hr : env.refreshResponse = .ok d)
    (h12 : now2 < now1 + d.expires_in * 1000)
    (h13 : now1 + d.expires_in * 1000 ≤ now3)
    (hvalid : now2 < t.expires_at) :
    (getDropboxClient env none now1).exchanges = 1 ∧
    (getDropboxClient env none now1).cache = some (freshTokens env d now1) ∧
    (freshTokens env d now1).expires_at = now1 + d.expires_in * 1000 ∧
    (getDropboxClient env (getDropboxClient env none now1).cache
      now2).exchanges = 0 ∧
    (getDropboxClient env (getDropboxClient env none now1).cache now2).cache =
      (getDropboxClient env none now1).cache ∧
    (getDropboxClient env none now1).exchanges +
      (getDropboxClient env (getDropboxClient env none now1).cache
        now2).exchanges = 1 ∧
    (getDropboxClient env (getDropboxClient env none now1).cache
      now3).exchanges = 1 ∧
    (getDropboxClient env (getDropboxClient env none now1).cache now3).cache =
      some (freshTokens env d now3) ∧
    (freshTokens env d now3).expires_at = now3 + d.expires_in * 1000 ∧
    getDropboxClient env (some t) now2 =
      { cache := some t, result := .ok t.access_token, exchanges := 0 } := by
  have s1 := getDropboxClient_fresh env d now1 hc hr
  have hlt2 : now2 < (freshTokens env d now1).expires_at := h12
  have hle3 : (freshTokens env d now1).expires_at ≤ now3 := h13
  have s2 := getDropboxClient_cached env (freshTokens env d now1) now2 hc hlt2
  have s3 := getDropboxClient_expired env (freshTokens env d now1) d now3 hc hr
    hle3
  have s4 := getDropboxClient_cached env t now2 hc hvalid
  refine ⟨by simp [s1], by simp [s1], rfl, by simp [s1, s2], by simp [s1, s2],
    by simp [s1, s2], by simp [s1, s3], by simp [s1, s3], rfl, s4⟩

/-- C5 witness: lifetime 14400 s; first call at 1000 ms, reuse at
2000 ms, forced refresh at 20000000 ms, and a far-future cached token. -/
theorem C5_witness :
    (getDropboxClient wAuthEnv none 1000).exchanges = 1 ∧
    (getDropboxClient wAuthEnv none 1000).cache =
      some (freshTokens wAuthEnv wRefreshData 1000) ∧
    (freshTokens wAuthEnv wRefreshData 1000).expires_at =
      1000 + wRefreshData.expires_in * 1000 ∧
    (getDropboxClient wAuthEnv (getDropboxClient wAuthEnv none 1000).cache
      2000).exchanges = 0 ∧
    (getDropboxClient wAuthEnv (getDropboxClient wAuthEnv none 1000).cache
      2000).cache = (getDropboxClient wAuthEnv none 1000).cache ∧
    (getDropboxClient wAuthEnv none 1000).exchanges +
      (getDropboxClient wAuthEnv (getDropboxClient wAuthEnv none 1000).cache
        2000).exchanges = 1 ∧
    (getDropboxClient wAuthEnv (getDropboxClient wAuthEnv none 1000).cache
      20000000).exchanges = 1 ∧
    (getDropboxClient wAuthEnv (getDropboxClient wAuthEnv none 1000).cache
      20000000).cache = some (freshTokens wAuthEnv wRefreshData 20000000) ∧
    (freshTokens wAuthEnv wRefreshData 20000000).expires_at =
      20000000 + wRefreshData.expires_in * 1000 ∧
    getDropboxClient wAuthEnv (some wTokValid) 2000 =
      { cache := some wTokValid, result := .ok wTokValid.access_token
      , exchanges := 0 } :=
  C5_token_caching wAuthEnv wRefreshData 1000 2000 20000000 wTokValid
    rfl rfl (by decide) (by decide) (by decide)

/-- C6 counterexample: with an expired token cached and the refresh
exchange failing, getDropboxClient raises the error but the stale token
is still in the cache afterwards — it is not discarded, so the claimed
"no stale token in the cache" is false on the code. -/
theorem C6_counterexample :
    (getDropboxClient wAuthEnvFail (some wTokOld) 10).result =
      .error "refresh failed" ∧
    (getDropboxClient wAuthEnvFail (some wTokOld) 10).cache = some wTokOld ∧
    some wTokOld ≠ (none : Option DropboxTokens) :=
  ⟨rfl, rfl, by decide⟩

/-- C6 amended: when the refresh exchange fails, obtain() raises that
error to the caller, attempts exactly one exchange (no internal retry),
and leaves the cache exactly as it was — a prior expired token remains
cached rather than being discarded. -/
theorem C6_amended_failed_refresh_keeps_cache (env : AuthEnv)
    (state : Option DropboxTokens) (now : Nat) (msg : String)
    (hc : env.hasCredentials = true)
    (hr : env.refreshResponse = .error msg)
    (hexp : state = none ∨ ∃ t, state = some t ∧ t.expires_at ≤ now) :
    getDropboxClient env state now =
      { cache := state, result := .error msg, exchanges := 1 } := by
  rcases hexp with rfl | ⟨t, rfl, hle⟩
  · simp [getDropboxClient, hc, refreshExchange, hr]
  · simp [getDropboxClient, hc, hle, refreshExchange, hr]

/-- C6 witness for the amended statement. -/
theorem C6_amended_witness :
    getDropboxClient wAuthEnvFail (some wTokOld) 10 =
      { cache := some wTokOld, result := .error "refresh failed"
      , exchanges := 1 } :=
  C6_amended_failed_refresh_keeps_cache wAuthEnvFail (some wTokOld) 10
    "refresh failed" rfl rfl (Or.inr ⟨wTokOld, rfl, by decide⟩)

/-- C7: when the shared-link listing returns at least one link,
resolution picks the first and normalizes it (sharing domain rewritten to
the direct-content domain, preview marker stripped); the documented
example normalizes exactly as stated; and when no link exists, the
created link receives the same normalization. -/
theorem C7_link_normalization (env : SyncEnv) (f : FileEntry)
    (l : SharedLink) (rest : List SharedLink) (l2 : SharedLink)
    (hsome : env.sharingListSharedLinks f.path_lower = .ok (l :: rest)) :
    resolveLink env f = normalizeLink l.url ∧
    normalizeLink "https://www.dropbox.com/s/abc?dl=0" =
      "https://dl.dropboxusercontent.com/s/abc" ∧
    (∀ env2 : SyncEnv, ∀ g : FileEntry,
      env2.sharingListSharedLinks g.path_lower = .ok [] →
      env2.sharingCreateSharedLink g.path_lower = .ok l2 →
      resolveLink env2 g = normalizeLink l2.url) := by
  refine ⟨?_, ?_, ?_⟩
  · unfold resolveLink
    rw [hsome]
  · rfl
  · intro env2 g hnil hcreate
    unfold resolveLink
    rw [hnil, hcreate]

/-- C7 witness. -/
theorem C7_witness :
    resolveLink wSyncEnv wFileA =
      normalizeLink
        ({ url := "https://www.dropbox.com/s/abc?dl=0" } : SharedLink).url ∧
    normalizeLink "https://www.dropbox.com/s/abc?dl=0" =
      "https://dl.dropboxusercontent.com/s/abc" ∧
    resolveLink wEnvNoLink wFileA =
      normalizeLink
        ({ url := "https://www.dropbox.com/s/new?dl=0" } : SharedLink).url := by
  have h := C7_link_normalization wSyncEnv wFileA
    { url := "https://www.dropbox.com/s/abc?dl=0" } []
    { url := "https://www.dropbox.com/s/new?dl=0" } rfl
  exact ⟨h.1, h.2.1, h.2.2 wEnvNoLink wFileA rfl rfl⟩

/-- C8: when sharing fails for a file — the link listing throws, or it
returns no links and creation throws — the sync does not abort: the file
gets the placeholder URL temporary-link-for-<name>, its content is still
fetched and indexed under that URL, and the run over any successfully
enumerated corpus still completes. -/
theorem C8_placeholder_on_sharing_failure (env : SyncEnv) (f : FileEntry)
    (idx : ESIndex) (c e1 e2 : String)
    (hshare : env.sharingListSharedLinks f.path_lower = .error e1 ∨
      (env.sharingListSharedLinks f.path_lower = .ok [] ∧
        env.sharingCreateSharedLink f.path_lower = .error e2))
    (hA : env.auth = .ok ())
    (hdl : env.filesDownload f.path_lower = .ok c)
    (hwr : env.esWrite f.path_lower = .ok ()) :
    resolveLink env f = "temporary-link-for-" ++ f.name ∧
    tryProcessFile env idx f =
      esIndexDoc idx (b64EncodeBytes f.path_lower)
        { filename := f.name, content := c, path := f.path_lower
        , lastModified := f.server_modified
        , url := "temporary-link-for-" ++ f.name } ∧
    (∀ entries : List FileEntry, env.listFolder = .ok entries →
      indexDropboxFiles env idx =
        .ok ((textFilesOf entries).foldl (tryProcessFile env) idx)) := by
  have hres : resolveLink env f = "temporary-link-for-" ++ f.name := by
    unfold resolveLink
    rcases hshare with h | ⟨h1, h2⟩
    · rw [h]
    · rw [h1, h2]
  refine ⟨hres, ?_, ?_⟩
  · rw [tryProcessFile_eq_of_success env idx f c hA hdl hwr, hres]
  · intro entries hlist
    exact run_ok env entries idx hA hlist

/-- C8 witness: sharing listing throws for a.txt; it is still indexed
with the placeholder URL and the run completes. -/
theorem C8_witness :
    resolveLink wEnvShareFail wFileA = "temporary-link-for-" ++ wFileA.name ∧
    tryProcessFile wEnvShareFail [] wFileA =
      esIndexDoc [] (b64EncodeBytes wFileA.path_lower)
        { filename := wFileA.name, content := "hello world"
        , path := wFileA.path_lower
        , lastModified := wFileA.server_modified
        , url := "temporary-link-for-" ++ wFileA.name } ∧
    indexDropboxFiles wEnvShareFail [] =
      .ok ((textFilesOf [wFileA]).foldl (tryProcessFile wEnvShareFail) []) := by
  have h := C8_placeholder_on_sharing_failure wEnvShareFail wFileA []
    "hello world" "sharing down" "unused" (Or.inl rfl) rfl rfl rfl
  exact ⟨h.1, h.2.1, h.2.2 [wFileA] rfl⟩


/-- C9: the search endpoint returns 400 with the exact error body and
sends no query to the index when the term is missing or empty; returns
500 with the generic body — independent of the failure detail — when the
query against the index throws; and returns 200 with the mapped hit
array otherwise. -/
theorem C9_search_endpoint (env : SearchEnv) (term e : String)
    (hitList : List ESHit) (hne : term ≠ "") :
    handleSearch env none =
      ({ status := 400, body := .errorObj "Search term is required" }, 0) ∧
    handleSearch env (some "") =
      ({ status := 400, body := .errorObj "Search term is required" }, 0) ∧
    (env.searchOutcome term = .error e →
      handleSearch env (some term) =
        ({ status := 500, body := .errorObj "Search failed" }, 1)) ∧
    (env.searchOutcome term = .ok hitList →
      handleSearch env (some term) =
        ({ status := 200, body := .hits (hitList.map mapHit) }, 1)) := by
  refine ⟨rfl, rfl, ?_, ?_⟩
  · intro hq
    simp only [handleSearch]
    rw [if_neg hne, hq]
  · intro hq
    simp only [handleSearch]
    rw [if_neg hne, hq]

/-- C9 witness: missing term, empty term, a throwing query ("boom") and a
successful query ("hello") over the fixture engine. -/
theorem C9_witness :
    handleSearch wSearchEnv none =
      ({ status := 400, body := .errorObj "Search term is required" }, 0) ∧
    handleSearch wSearchEnv (some "") =
      ({ status := 400, body := .errorObj "Search term is required" }, 0) ∧
    handleSearch wSearchEnv (some "boom") =
      ({ status := 500, body := .errorObj "Search failed" }, 1) ∧
    handleSearch wSearchEnv (some "hello") =
      ({ status := 200, body := .hits ([wHit1, wHit2].map mapHit) }, 1) := by
  have h1 := C9_search_endpoint wSearchEnv "boom" "es down" [wHit1, wHit2]
    (by decide)
  have h2 := C9_search_endpoint wSearchEnv "hello" "es down" [wHit1, wHit2]
    (by decide)
  exact ⟨h1.1, h1.2.1, h1.2.2.1 rfl, h2.2.2.2 rfl⟩

/-- C10: every returned hit is mapped fieldwise — filename, url and
lastModified from the hit source or the empty string when the source is
absent, score from the engine's relevance score or 0 when absent, excerpt
the first highlighted content fragment or absent — and the rows come back
positionwise in the engine's order, with no re-sorting. -/
theorem C10_hit_mapping (env : SearchEnv) (term : String)
    (hitList : List ESHit) (hne : term ≠ "")
    (hok : env.searchOutcome term = .ok hitList) :
    handleSearch env (some term) =
      ({ status := 200, body := .hits (hitList.map mapHit) }, 1) ∧
    (hitList.map mapHit).length = hitList.length ∧
    (∀ i : Nat, (hitList.map mapHit)[i]? =
      hitList[i]?.map (fun hit =>
        { filename := (hit.source.map FileDocument.filename).getD ""
        , url := (hit.source.map FileDocument.url).getD ""
        , lastModified := (hit.source.map FileDocument.lastModified).getD ""
        , score := hit.score.getD 0
        , excerpt :=
            match hit.highlight.bind HitHighlight.content with
            | some frags => frags.head?
            | none => none })) := by
  refine ⟨?_, by simp, fun i => ?_⟩
  · simp only [handleSearch]
    rw [if_neg hne, hok]
  · rw [List.getElem?_map]
    rfl

/-- C10 witness: mapping a hit with all fields present and a hit with
none of them. -/
theorem C10_witness :
    handleSearch wSearchEnv (some "hello") =
      ({ status := 200, body := .hits ([wHit1, wHit2].map mapHit) }, 1) ∧
    ([wHit1, wHit2].map mapHit).length = [wHit1, wHit2].length ∧
    (∀ i : Nat, ([wHit1, wHit2].map mapHit)[i]? =
      [wHit1, wHit2][i]?.map (fun hit =>
        { filename := (hit.source.map FileDocument.filename).getD ""
        , url := (hit.source.map FileDocument.url).getD ""
        , lastModified := (hit.source.map FileDocument.lastModified).getD ""
        , score := hit.score.getD 0
        , excerpt :=
            match hit.highlight.bind HitHighlight.content with
            | some frags => frags.head?
            | none => none })) :=
  C10_hit_mapping wSearchEnv "hello" [wHit1, wHit2] (by decide) rfl


end DocSearch
